import Mathlib

/-!
Shallow embedding of the httpchat message-relay core.

The definitions below are translated from the Go source of the repository:

* internal/repositoryerr/repositoryerr.go — classified repository errors
  (code, operation name, wrapped cause) and the errors.As unwrapping walk;
* internal/repository/repository.go — the PostgreSQL store operations
  (CreateMessage, UpdateMessageStatus, GetMessageByID, GetStatistics);
  database/transport outcomes of a single SQL call are abstracted into an
  explicit DbOutcome oracle, since they are decided by the environment,
  never by the arguments;
* internal/validation/validation.go — boundary content/id validation;
* internal/service/message.go — the service layer (CreateMessage,
  ProcessMessage, handleError);
* internal/handler/message.go — the HTTP boundary for message creation;
* cmd/server/main.go, processKafkaMessages — the consume loop: JSON
  decoding of the queue envelope, the bounded-retry apply step, and the
  cancellation checks.  Blocking effects (the fixed-delay sleep, the
  setProcessed calls, log statements of the loop) are recorded as an
  explicit event trace.

Timestamps are abstracted to integer ticks; Go int64 values are embedded
as Int (no arithmetic near the overflow boundary occurs in this code).
-/

namespace HttpChat

/-! ### Classified errors — internal/repositoryerr/repositoryerr.go -/

/-- Error code constants of repositoryerr.go. -/
def ErrorCodeMessageNotFound : String := "MESSAGE_NOT_FOUND"

/-- Code for connection failures (spec kind Unavailable). -/
def ErrorCodeDatabaseConnection : String := "DATABASE_CONNECTION_ERROR"

/-- Code for unique-constraint violations on create. -/
def ErrorCodeDuplicateEntry : String := "DUPLICATE_ENTRY"

/-- Code for malformed input detected by the store. -/
def ErrorCodeInvalidInput : String := "INVALID_INPUT"

/-- Code for failed SQL transactions. -/
def ErrorCodeTransactionFailed : String := "TRANSACTION_FAILED"

/-- Code for row-scan / rows-affected failures. -/
def ErrorCodeSerializationFailed : String := "SERIALIZATION_FAILED"

/-- RepositoryError of repositoryerr.go: a classified error carrying the
error code (empty string means no specific code, the Unknown kind), the
name of the failing operation, and a textual cause. -/
structure RepositoryError where
  code : String
  op : String
  cause : String
deriving DecidableEq, Repr

/-- Go error values as they occur in this code base: a classified
repository error, a fmt.Errorf("...: %w", err) wrap, or a plain error. -/
inductive GoError where
  | repo (e : RepositoryError)
  | wrapped (msg : String) (cause : GoError)
  | plain (msg : String)
deriving DecidableEq, Repr

/-- errors.As(err, &repoErr) for target *RepositoryError: walk the Unwrap
chain and return the first RepositoryError found. -/
def errorsAsRepositoryError : GoError → Option RepositoryError
  | .repo e => some e
  | .wrapped _ cause => errorsAsRepositoryError cause
  | .plain _ => none

/-! ### Data model — internal/model/message.go -/

/-- Message record (model.Message). -/
structure Message where
  id : Int
  content : String
  processed : Bool
  created_at : Int
  updated_at : Int
deriving DecidableEq, Repr

/-- Statistics projection (model.Statistics). -/
structure Statistics where
  totalMessages : Nat
  processedMessages : Nat
  unprocessedMessages : Nat
deriving DecidableEq, Repr

/-! ### Durable store — internal/repository/repository.go

The messages table keyed by a SERIAL id (ids assigned 1, 2, ...) is
embedded as a list of rows plus the next id of the sequence.  The outcome
of the database call itself — reachable only through the environment, not
through the arguments — is an explicit oracle value. -/

/-- Store state: the rows of the messages table and the next SERIAL id. -/
structure Store where
  rows : List Message
  nextId : Int
deriving DecidableEq, Repr

/-- Initial state of a fresh messages table (SERIAL starts at 1). -/
def emptyStore : Store := { rows := [], nextId := 1 }

/-- Environmental outcome of one database call: success, a PostgreSQL
error with an SQLSTATE code, a driver-level row-reading failure (the
RowsAffected read for UPDATE, the row Scan / iteration for queries), or
any other driver/transport failure. -/
inductive DbOutcome where
  | ok
  | pqError (code : String)
  | rowsAffectedError (msg : String)
  | otherError (msg : String)
deriving DecidableEq, Repr

/-- CreateMessage of repository.go: INSERT ... RETURNING.  On success the
row gets the next SERIAL id, processed = false and both timestamps = now.
PostgreSQL error codes are classified exactly as in the source; note that
no branch inspects the content — the store performs no content
validation.  (A rows-affected failure cannot arise for this statement and
is mapped to the generic insert-failure branch.) -/
def CreateMessage (db : DbOutcome) (s : Store) (now : Int) (content : String) :
    Except GoError (Message × Store) :=
  match db with
  | .ok =>
      let m : Message :=
        { id := s.nextId, content := content, processed := false,
          created_at := now, updated_at := now }
      .ok (m, { rows := s.rows ++ [m], nextId := s.nextId + 1 })
  | .pqError c =>
      if c = "23505" then
        .error (.repo ⟨ErrorCodeDuplicateEntry, "CreateMessage", "duplicate message entry"⟩)
      else if c = "23502" then
        .error (.repo ⟨ErrorCodeInvalidInput, "CreateMessage", "missing required field"⟩)
      else if c = "23503" then
        .error (.repo ⟨ErrorCodeInvalidInput, "CreateMessage", "foreign key violation"⟩)
      else if c = "25P02" then
        .error (.repo ⟨ErrorCodeTransactionFailed, "CreateMessage", "transaction failed"⟩)
      else
        .error (.repo ⟨"", "CreateMessage", "failed to insert message"⟩)
  | .rowsAffectedError _ =>
      .error (.repo ⟨"", "CreateMessage", "failed to insert message"⟩)
  | .otherError _ =>
      .error (.repo ⟨"", "CreateMessage", "failed to insert message"⟩)

/-- Effect of the UPDATE statement on one row: a row with the matching
id gets the new processed flag and updated_at = now; other rows are
untouched. -/
def setRowStatus (id : Int) (processed : Bool) (now : Int) (m : Message) : Message :=
  if m.id = id then { m with processed := processed, updated_at := now } else m

/-- UpdateMessageStatus of repository.go: UPDATE messages SET processed,
updated_at WHERE id.  Exec errors are classified as in the source; on
success, zero affected rows yields MESSAGE_NOT_FOUND, otherwise every row
with the id gets the new processed flag and updated_at = now. -/
def UpdateMessageStatus (db : DbOutcome) (s : Store) (now : Int) (id : Int)
    (processed : Bool) : Except GoError Store :=
  match db with
  | .pqError c =>
      if c = "22P02" then
        .error (.repo ⟨ErrorCodeInvalidInput, "UpdateMessageStatus", "invalid message ID format"⟩)
      else if c = "25P02" then
        .error (.repo ⟨ErrorCodeTransactionFailed, "UpdateMessageStatus", "transaction failed"⟩)
      else
        .error (.repo ⟨"", "UpdateMessageStatus", "failed to update message"⟩)
  | .rowsAffectedError _ =>
      .error (.repo ⟨ErrorCodeSerializationFailed, "UpdateMessageStatus", "failed to get rows affected"⟩)
  | .otherError _ =>
      .error (.repo ⟨"", "UpdateMessageStatus", "failed to update message"⟩)
  | .ok =>
      let rowsAffected := s.rows.countP (fun m => m.id = id)
      if rowsAffected = 0 then
        .error (.repo ⟨ErrorCodeMessageNotFound, "UpdateMessageStatus", "message not found"⟩)
      else
        .ok { s with rows := s.rows.map (setRowStatus id processed now) }

/-- GetStatistics of repository.go, healthy-database value: one SELECT
computing COUNT(*), COUNT(processed = TRUE) and COUNT(processed = FALSE)
over a single snapshot of the table. -/
def GetStatistics (s : Store) : Statistics :=
  { totalMessages := s.rows.length,
    processedMessages := (s.rows.filter (fun m => m.processed)).length,
    unprocessedMessages := (s.rows.filter (fun m => !m.processed)).length }

/-- Store states reachable by any sequence of (healthy-database) creates
and processed-status updates, starting from a fresh table. -/
inductive Reachable : Store → Prop
  | empty : Reachable emptyStore
  | create (s : Store) (now : Int) (content : String) (m : Message) (s2 : Store) :
      Reachable s → CreateMessage .ok s now content = .ok (m, s2) → Reachable s2
  | update (s : Store) (now : Int) (id : Int) (b : Bool) (s2 : Store) :
      Reachable s → UpdateMessageStatus .ok s now id b = .ok s2 → Reachable s2

/-! ### Boundary validation — internal/validation/validation.go -/

/-- Validation error (validation.Error). -/
structure ValidationError where
  code : String
  message : String
deriving DecidableEq, Repr

/-- Validation code for empty content. -/
def ValidationErrorCodeEmptyContent : String := "EMPTY_CONTENT"

/-- Validation code for over-length content. -/
def ValidationErrorCodeContentTooLong : String := "CONTENT_TOO_LONG"

/-- Validation code for content containing a prohibited character. -/
def ValidationErrorCodeInvalidCharacters : String := "INVALID_CHARACTERS"

/-- Validation code for a non-positive id. -/
def ValidationErrorCodeInvalidID : String := "INVALID_ID"

/-- ValidateMessageContent of validation.go: empty content, more than
maxContentLength code points (utf8.RuneCountInString = number of Chars),
or a character matching the regular expression class of the two angle
brackets, in that order. -/
def ValidateMessageContent (maxContentLength : Nat) (content : String) :
    Option ValidationError :=
  if content = "" then
    some ⟨ValidationErrorCodeEmptyContent, "message content cannot be empty"⟩
  else if content.length > maxContentLength then
    some ⟨ValidationErrorCodeContentTooLong, "message content too long"⟩
  else if content.data.any (fun c => c = '<' || c = '>') then
    some ⟨ValidationErrorCodeInvalidCharacters, "message content contains invalid characters"⟩
  else
    none

/-- ValidateMessageID of validation.go: ids must be positive. -/
def ValidateMessageID (id : Int) : Option ValidationError :=
  if id ≤ 0 then some ⟨ValidationErrorCodeInvalidID, "message ID must be positive"⟩
  else none

/-! ### Broker client — internal/kafka/producer.go -/

/-- Environmental outcome of one broker publish. -/
inductive PublishOutcome where
  | ok
  | err (msg : String)
deriving DecidableEq, Repr

/-- SendMessage of producer.go: a transport failure is wrapped with the
producer message; success returns nothing. -/
def SendMessage (p : PublishOutcome) : Except GoError Unit :=
  match p with
  | .ok => .ok ()
  | .err m => .error (.wrapped "failed to write message to Kafka" (.plain m))

/-! ### Service layer — internal/service/message.go -/

/-- handleError of service/message.go: inspect the classified code for
logging, then wrap the original error with fmt.Errorf("...: %w", err).
No branch builds a new RepositoryError — the original classification
stays on the unwrap chain. -/
def handleError (op : String) (err : GoError) (id : Int) : GoError :=
  match errorsAsRepositoryError err with
  | some repoErr =>
      if repoErr.code = ErrorCodeMessageNotFound then .wrapped "message not found" err
      else if repoErr.code = ErrorCodeInvalidInput then .wrapped "invalid input" err
      else if repoErr.code = ErrorCodeDatabaseConnection then .wrapped "database unavailable" err
      else if repoErr.code = ErrorCodeDuplicateEntry then .wrapped "duplicate entry" err
      else .wrapped "operation failed" err
  | none => .wrapped "operation failed" err

/-- CreateMessage of service/message.go: store create, JSON-marshal the
record (marshalling a Message value cannot fail), publish the envelope,
and return the id the store assigned.  A create failure is surfaced via
handleError; a publish failure is surfaced wrapped, with the store state
left exactly as after the successful create. -/
def serviceCreateMessage (db : DbOutcome) (pub : PublishOutcome) (s : Store)
    (now : Int) (content : String) : (Except GoError Int) × Store :=
  match CreateMessage db s now content with
  | .error e => (.error (handleError "message creation" e 0), s)
  | .ok (message, s1) =>
      match SendMessage pub with
      | .error e => (.error (.wrapped "failed to send message to Kafka" e), s1)
      | .ok _ => (.ok message.id, s1)

/-- ProcessMessage of service/message.go: set processed = true for the
id; a store failure is surfaced via handleError. -/
def serviceProcessMessage (db : DbOutcome) (s : Store) (now : Int) (id : Int) :
    Except GoError Store :=
  match UpdateMessageStatus db s now id true with
  | .error e => .error (handleError "message processing" e id)
  | .ok s1 => .ok s1

/-- HTTP responses the message handler can produce. -/
inductive HttpResponse where
  | okId (id : Int)
  | badRequest (msg : String)
  | notFound (msg : String)
  | unavailable (msg : String)
  | internalError (msg : String)
deriving DecidableEq, Repr

/-- handleServiceError of handler/message.go: map the classified code of
a service error to an HTTP response. -/
def handleServiceError (err : GoError) : HttpResponse :=
  match errorsAsRepositoryError err with
  | some repoErr =>
      if repoErr.code = ErrorCodeInvalidInput then .badRequest "Invalid input"
      else if repoErr.code = ErrorCodeDuplicateEntry then .badRequest "Duplicate entry"
      else if repoErr.code = ErrorCodeMessageNotFound then .notFound "Message not found"
      else if repoErr.code = ErrorCodeDatabaseConnection then .unavailable "Service temporarily unavailable"
      else .internalError "Internal server error"
  | none => .internalError "Internal server error"

/-- CreateMessageHandler of handler/message.go, after JSON body binding:
validate the content first; only when validation passes is the service
(and hence the store) called.  Returns the response together with the
store state after the request. -/
def createMessageHandler (db : DbOutcome) (pub : PublishOutcome) (s : Store)
    (now : Int) (content : String) : HttpResponse × Store :=
  match ValidateMessageContent 1000 content with
  | some ve =>
      if ve.code = ValidationErrorCodeEmptyContent then
        (.badRequest "Message content cannot be empty", s)
      else if ve.code = ValidationErrorCodeContentTooLong then
        (.badRequest "Message content too long (max 1000 characters)", s)
      else if ve.code = ValidationErrorCodeInvalidCharacters then
        (.badRequest "Message content contains invalid characters", s)
      else
        (.badRequest "Invalid message content", s)
  | none =>
      match serviceCreateMessage db pub s now content with
      | (.error e, s1) => (handleServiceError e, s1)
      | (.ok id, s1) => (.okId id, s1)

/-! ### Queue envelope decoding — encoding/json over model.Message

The consume loop of cmd/server/main.go decodes the broker payload with
json.Unmarshal into a model.Message.  Decoding of a JSON object fills
each struct field from the object when present and leaves the Go zero
value when the field is absent or null; a value of the wrong shape is a
decode error; a non-object payload is a decode error.  Timestamps are
abstracted to integer ticks. -/

/-- JSON values. -/
inductive Json where
  | null
  | bool (b : Bool)
  | num (n : Int)
  | str (s : String)
  | arr (elems : List Json)
  | obj (fields : List (String × Json))
deriving Repr

/-- Last binding of a key in a JSON object (a later duplicate key
overwrites an earlier one). -/
def jsonField (fields : List (String × Json)) (key : String) : Option Json :=
  fields.foldl (fun acc kv => if kv.1 = key then some kv.2 else acc) none

/-- Decode one struct field: absent or null keeps the zero value,
a present value must have the right shape. -/
def decodeField {α : Type} (fields : List (String × Json)) (key : String)
    (conv : Json → Option α) (zero : α) : Except String α :=
  match jsonField fields key with
  | none => .ok zero
  | some .null => .ok zero
  | some v =>
      match conv v with
      | some a => .ok a
      | none => .error "cannot unmarshal"

/-- Integer JSON values. -/
def jsonAsInt : Json → Option Int
  | .num n => some n
  | _ => none

/-- String JSON values. -/
def jsonAsString : Json → Option String
  | .str s => some s
  | _ => none

/-- Boolean JSON values. -/
def jsonAsBool : Json → Option Bool
  | .bool b => some b
  | _ => none

/-- json.Unmarshal of a payload into model.Message: field tags id,
content, processed, created_at, updated_at; zero values id = 0,
content = "", processed = false, timestamps = 0. -/
def unmarshalMessage : Json → Except String Message
  | .obj fields => do
      let id ← decodeField fields "id" jsonAsInt 0
      let content ← decodeField fields "content" jsonAsString ""
      let processed ← decodeField fields "processed" jsonAsBool false
      let created ← decodeField fields "created_at" jsonAsInt 0
      let updated ← decodeField fields "updated_at" jsonAsInt 0
      .ok { id := id, content := content, processed := processed,
            created_at := created, updated_at := updated }
  | _ => .error "cannot unmarshal"

/-! ### Consume loop — cmd/server/main.go, processKafkaMessages

One iteration of the outer for-loop is embedded as a function of
  * the cancellation-signal value at the loop-top select,
  * the result of the blocking broker read (including whether ctx.Err()
    was non-nil at the check after a read failure),
  * a DbOutcome oracle giving the environmental outcome of the database
    call behind each setProcessed attempt,
together with the store.  Observable effects — setProcessed calls, the
fixed-delay time.Sleep between attempts, and the log statements of the
loop — are recorded as an event trace.  The time.Sleep(retryDelay) call
of the source takes no context and is therefore recorded unconditionally
by the retry step; nothing inside the retry loop reads the cancellation
signal. -/

/-- Log levels of the structured logger. -/
inductive LogLevel where
  | info
  | warn
  | error
deriving DecidableEq, Repr

/-- Observable events of one consume-loop iteration. -/
inductive Event where
  | setProcessedCall (id : Int) (processed : Bool)
  | sleep (delayMs : Nat)
  | log (level : LogLevel) (msg : String)
deriving DecidableEq, Repr

/-- Number of sleep events in a trace. -/
def countSleeps (events : List Event) : Nat :=
  events.countP (fun ev => match ev with | .sleep _ => true | _ => false)

/-- Number of setProcessed calls in a trace. -/
def countCalls (events : List Event) : Nat :=
  events.countP (fun ev => match ev with | .setProcessedCall _ _ => true | _ => false)

/-- Number of warning-level log events in a trace. -/
def countWarnLogs (events : List Event) : Nat :=
  events.countP (fun ev => match ev with | .log .warn _ => true | _ => false)

/-- Every setProcessed call in the trace targets the given id with
processed = true, and every sleep lasts exactly the given fixed delay. -/
def callsOnlyIdTrue (id : Int) (retryDelay : Nat) (events : List Event) : Bool :=
  events.all (fun ev =>
    match ev with
    | .setProcessedCall i b => i == id && b == true
    | .sleep d => d == retryDelay
    | .log _ _ => true)

/-- Result of the bounded-retry apply step for one message. -/
structure RetryResult where
  store : Store
  events : List Event
  shouldSkip : Bool
  processErr : Option GoError
deriving DecidableEq, Repr

/-- Classification of one ProcessMessage attempt, mirroring lines
200-227 of main.go: success breaks the loop; errors.As on the error and
a switch on the code marks MESSAGE_NOT_FOUND and INVALID_INPUT as
skip-without-retry; every other error (classified or not) is retried. -/
inductive AttemptStep where
  | success (s1 : Store)
  | skipNotFound
  | skipInvalid
  | retryable (e : GoError)
deriving DecidableEq, Repr

/-- One attempt of the retry loop body: call service.ProcessMessage and
classify the outcome. -/
def classifyAttempt (db : DbOutcome) (s : Store) (now : Int) (id : Int) : AttemptStep :=
  match serviceProcessMessage db s now id with
  | .ok s1 => .success s1
  | .error e =>
      match errorsAsRepositoryError e with
      | some repoErr =>
          if repoErr.code = ErrorCodeMessageNotFound then .skipNotFound
          else if repoErr.code = ErrorCodeInvalidInput then .skipInvalid
          else .retryable e
      | none => .retryable e

/-- The bounded-retry loop of processKafkaMessages (for attempt := 0;
attempt <= maxRetries; attempt++), with budget = maxRetries - attempt
remaining retries; the guard attempt < maxRetries of the sleep-and-retry
branch holds exactly when budget > 0.  A failed attempt leaves the store
unchanged; the sleep between attempts is the fixed retryDelay. -/
def processAttempts (dbs : Nat → DbOutcome) (retryDelay : Nat) (now : Int)
    (id : Int) (s : Store) : Nat → Nat → RetryResult
  | attempt, 0 =>
      match classifyAttempt (dbs attempt) s now id with
      | .success s1 =>
          { store := s1, events := [.setProcessedCall id true],
            shouldSkip := false, processErr := none }
      | .skipNotFound =>
          { store := s,
            events := [.setProcessedCall id true, .log .warn "Message not found for processing"],
            shouldSkip := true, processErr := none }
      | .skipInvalid =>
          { store := s,
            events := [.setProcessedCall id true, .log .warn "Invalid message ID format"],
            shouldSkip := true, processErr := none }
      | .retryable e =>
          { store := s, events := [.setProcessedCall id true],
            shouldSkip := false, processErr := some e }
  | attempt, budget + 1 =>
      match classifyAttempt (dbs attempt) s now id with
      | .success s1 =>
          { store := s1, events := [.setProcessedCall id true],
            shouldSkip := false, processErr := none }
      | .skipNotFound =>
          { store := s,
            events := [.setProcessedCall id true, .log .warn "Message not found for processing"],
            shouldSkip := true, processErr := none }
      | .skipInvalid =>
          { store := s,
            events := [.setProcessedCall id true, .log .warn "Invalid message ID format"],
            shouldSkip := true, processErr := none }
      | .retryable _ =>
          let r := processAttempts dbs retryDelay now id s (attempt + 1) budget
          { store := r.store,
            events := .setProcessedCall id true ::
              .log .warn "Error processing message, retrying" :: .sleep retryDelay :: r.events,
            shouldSkip := r.shouldSkip, processErr := r.processErr }

/-- The final per-message log of the loop is the success message exactly
when the message was skipped as handled or the retry loop ended without
error; otherwise the failure message is logged. -/
def reportsApplied (r : RetryResult) : Bool :=
  r.shouldSkip || r.processErr.isNone

/-- Result of the blocking broker read, as the loop observes it: a
payload (none models bytes that are not valid JSON), or a read failure
together with the value of ctx.Err() != nil at the check that follows. -/
inductive ReadResult where
  | ok (payload : Option Json)
  | err (ctxCancelled : Bool)
deriving Repr

/-- What one iteration decides for the loop. -/
inductive IterOutcome where
  | shutdown
  | advance (s1 : Store)
deriving DecidableEq, Repr

/-- One iteration of processKafkaMessages with its event trace. -/
structure IterResult where
  outcome : IterOutcome
  events : List Event
deriving DecidableEq, Repr

/-- One iteration of the consume loop: the loop-top select returns when
the cancellation signal is set; a failed read exits when ctx.Err() was
non-nil and is otherwise logged and skipped; an undecodable payload is
logged and dropped; a decoded message runs the bounded-retry apply step
and the iteration always advances afterwards. -/
def consumeIteration (cancelledAtTop : Bool) (read : ReadResult)
    (dbs : Nat → DbOutcome) (maxRetries : Nat) (retryDelay : Nat)
    (s : Store) (now : Int) : IterResult :=
  if cancelledAtTop then
    { outcome := .shutdown, events := [.log .info "Kafka message processor shutting down"] }
  else
    match read with
    | .err ctxCancelled =>
        if ctxCancelled then
          { outcome := .shutdown, events := [.log .info "Kafka message processor shutting down"] }
        else
          { outcome := .advance s, events := [.log .error "Error reading message from Kafka"] }
    | .ok none =>
        { outcome := .advance s, events := [.log .error "Error unmarshaling message"] }
    | .ok (some payload) =>
        match unmarshalMessage payload with
        | .error _ =>
            { outcome := .advance s, events := [.log .error "Error unmarshaling message"] }
        | .ok message =>
            let r := processAttempts dbs retryDelay now message.id s 0 maxRetries
            let finalLog :=
              if r.shouldSkip then
                [Event.log .info "Successfully processed Kafka message"]
              else
                match r.processErr with
                | some _ => [Event.log .error "Failed to process message after retries"]
                | none => [Event.log .info "Successfully processed Kafka message"]
            { outcome := .advance r.store,
              events := .log .info "Processing Kafka message" :: r.events ++ finalLog }

/-- Discriminator for client-caused HTTP failures. -/
def HttpResponse.isBadRequest : HttpResponse → Bool
  | .badRequest _ => true
  | _ => false

/-- The database faults whose classified outcome is the Unavailable or
Unknown kind of the spec (or no classification at all): any non-pq driver
or transport failure, and any pq error outside the codes the source maps
to a specific classification for UPDATE (22P02 invalid input and 25P02
transaction failed).  All of them surface from UpdateMessageStatus with
the empty code. -/
def unavailableOrUnknownFault : DbOutcome → Bool
  | .otherError _ => true
  | .pqError c => !(c == "22P02" || c == "25P02")
  | _ => false

/-- Retry-loop oracle used by concrete witnesses: the first setProcessed
attempt fails with a transport error and every later attempt succeeds. -/
def failOnceDbs : Nat → DbOutcome :=
  fun i => if i = 0 then .otherError "connection refused" else .ok

/-- Sample store holding one processed record, as reached by one create
followed by one markProcessed. -/
def sampleStore : Store :=
  { rows := [{ id := 1, content := "hi", processed := true, created_at := 0, updated_at := 3 }],
    nextId := 2 }

/-- Sample store holding one not-yet-processed record, as reached by one
create. -/
def pendingStore : Store :=
  { rows := [{ id := 1, content := "hi", processed := false, created_at := 0, updated_at := 0 }],
    nextId := 2 }

/-! ### Helper lemmas -/

/-- Splitting a list by a Boolean predicate partitions its length. -/
theorem length_filter_add_length_filter_not {α : Type} (p : α → Bool) (l : List α) :
    (l.filter p).length + (l.filter (fun a => !p a)).length = l.length := by
  induction l with
  | nil => rfl
  | cons a t ih =>
      by_cases h : p a = true <;> simp [List.filter_cons, h] <;> omega

/-- Counterexample to C3: called directly with empty content (invalid by
the data-model invariants) and a healthy database, the store create does
not fail — it succeeds and creates a record. -/
theorem store_create_accepts_invalid_content :
    CreateMessage DbOutcome.ok emptyStore 0 "" =
      Except.ok
        ({ id := 1, content := "", processed := false, created_at := 0, updated_at := 0 },
         { rows := [{ id := 1, content := "", processed := false, created_at := 0, updated_at := 0 }],
           nextId := 2 }) := by
  rfl

/-- C3 (amended): invalid content (empty, more than the configured
maximum of code points, or containing an angle bracket) is rejected only
at the request boundary: the validator reports an error and the handler
answers 400 without calling the service, leaving the store unchanged, so
no record is created through submit.  The store create itself performs no
content validation. -/
theorem invalid_content_rejected_at_boundary
    (db : DbOutcome) (pub : PublishOutcome) (s : Store) (now : Int) (content : String)
    (h : content = "" ∨ content.length > 1000 ∨
         content.data.any (fun c => c = '<' || c = '>') = true) :
    (ValidateMessageContent 1000 content).isSome = true ∧
    (createMessageHandler db pub s now content).2 = s ∧
    ((createMessageHandler db pub s now content).1).isBadRequest = true := by
  by_cases hc : content = ""
  · simp [ValidateMessageContent, createMessageHandler, hc,
      ValidationErrorCodeEmptyContent, HttpResponse.isBadRequest]
  · by_cases hl : content.length > 1000
    · simp [ValidateMessageContent, createMessageHandler, hc, hl,
        ValidationErrorCodeEmptyContent, ValidationErrorCodeContentTooLong,
        HttpResponse.isBadRequest]
    · by_cases ha : content.data.any (fun c => c = '<' || c = '>') = true
      · simp [ValidateMessageContent, createMessageHandler, hc, hl, ha,
          ValidationErrorCodeEmptyContent, ValidationErrorCodeContentTooLong,
          ValidationErrorCodeInvalidCharacters, HttpResponse.isBadRequest]
      · rcases h with h | h | h
        · exact absurd h hc
        · exact absurd h hl
        · exact absurd h ha

/-- Witness for the amended C3 at empty content over the empty store. -/
theorem invalid_content_rejected_at_boundary_witness :
    (ValidateMessageContent 1000 "").isSome = true ∧
    (createMessageHandler DbOutcome.ok PublishOutcome.ok emptyStore 0 "").2 = emptyStore ∧
    ((createMessageHandler DbOutcome.ok PublishOutcome.ok emptyStore 0 "").1).isBadRequest = true :=
  invalid_content_rejected_at_boundary DbOutcome.ok PublishOutcome.ok emptyStore 0 ""
    (Or.inl rfl)

/-! ### C4 -/

/-- C4: when the store create succeeds and the broker publish fails,
submit surfaces the publish error (no id is returned) while the freshly
created record stays in the store with processed = false — no rollback;
when both steps succeed, submit returns exactly the id the store
assigned. -/
theorem submit_publish_failure_surfaced_record_kept
    (s : Store) (now : Int) (content : String) (pmsg : String) :
    (serviceCreateMessage DbOutcome.ok (PublishOutcome.err pmsg) s now content).1 =
      .error (.wrapped "failed to send message to Kafka"
        (.wrapped "failed to write message to Kafka" (.plain pmsg))) ∧
    (serviceCreateMessage DbOutcome.ok (PublishOutcome.err pmsg) s now content).2 =
      { rows := s.rows ++
          [{ id := s.nextId, content := content, processed := false,
             created_at := now, updated_at := now }],
        nextId := s.nextId + 1 } ∧
    (serviceCreateMessage DbOutcome.ok PublishOutcome.ok s now content).1 = .ok s.nextId ∧
    (serviceCreateMessage DbOutcome.ok PublishOutcome.ok s now content).2 =
      { rows := s.rows ++
          [{ id := s.nextId, content := content, processed := false,
             created_at := now, updated_at := now }],
        nextId := s.nextId + 1 } :=
  ⟨rfl, rfl, rfl, rfl⟩

/-! ### C6 -/

/-- C6: on every reachable store state, the statistics read is one
consistent snapshot: processed plus unprocessed counts equal the total,
and no row is counted on both sides. -/
theorem statistics_consistent (s : Store) (h : Reachable s) :
    (GetStatistics s).processedMessages + (GetStatistics s).unprocessedMessages
      = (GetStatistics s).totalMessages ∧
    (s.rows.filter (fun m => m.processed)).Disjoint
      (s.rows.filter (fun m => !m.processed)) := by
  refine ⟨length_filter_add_length_filter_not _ _, ?_⟩
  intro m hm hm2
  rw [List.mem_filter] at hm hm2
  rcases hm with ⟨_, hp⟩
  rcases hm2 with ⟨_, hnp⟩
  rw [hp] at hnp
  cases hnp

/-- Witness for C6 on a store reached by one create and one update. -/
theorem statistics_consistent_witness :
    (GetStatistics sampleStore).processedMessages +
      (GetStatistics sampleStore).unprocessedMessages
      = (GetStatistics sampleStore).totalMessages ∧
    (sampleStore.rows.filter (fun m => m.processed)).Disjoint
      (sampleStore.rows.filter (fun m => !m.processed)) :=
  statistics_consistent sampleStore
    (Reachable.update pendingStore 3 1 true sampleStore
      (Reachable.create emptyStore 0 "hi" _ pendingStore Reachable.empty (by rfl))
      (by rfl))

/-! ### C9 -/

/-- A healthy database call on a present id succeeds and classifies as
success. -/
theorem classifyAttempt_ok_of_present (s : Store) (now id : Int)
    (h : s.rows.countP (fun m => m.id = id) ≠ 0) :
    classifyAttempt DbOutcome.ok s now id =
      .success { s with rows := s.rows.map (setRowStatus id true now) } := by
  simp [classifyAttempt, serviceProcessMessage, UpdateMessageStatus, h]

/-- A healthy database call on an absent id classifies as the
non-retryable not-found skip. -/
theorem classifyAttempt_notFound_of_absent (s : Store) (now id : Int)
    (h : s.rows.countP (fun m => m.id = id) = 0) :
    classifyAttempt DbOutcome.ok s now id = .skipNotFound := by
  simp [classifyAttempt, serviceProcessMessage, UpdateMessageStatus, h, handleError,
    errorsAsRepositoryError, ErrorCodeMessageNotFound]

/-- An Unavailable/Unknown-kind database fault classifies as retryable. -/
theorem classifyAttempt_retryable_of_fault (db : DbOutcome) (s : Store) (now id : Int)
    (h : unavailableOrUnknownFault db = true) :
    ∃ e, classifyAttempt db s now id = .retryable e := by
  cases db with
  | otherError m => exact ⟨_, rfl⟩
  | pqError c =>
      simp only [unavailableOrUnknownFault, Bool.not_eq_true', Bool.or_eq_false_iff,
        beq_eq_false_iff_ne, ne_eq] at h
      obtain ⟨h1, h2⟩ := h
      refine ⟨.wrapped "operation failed"
        (.repo ⟨"", "UpdateMessageStatus", "failed to update message"⟩), ?_⟩
      simp [classifyAttempt, serviceProcessMessage, UpdateMessageStatus, h1, h2, handleError,
        errorsAsRepositoryError, ErrorCodeMessageNotFound, ErrorCodeInvalidInput,
        ErrorCodeDatabaseConnection, ErrorCodeDuplicateEntry]
  | ok => simp [unavailableOrUnknownFault] at h
  | rowsAffectedError m => simp [unavailableOrUnknownFault] at h

/-- The retry loop makes at most budget + 1 setProcessed calls. -/
theorem processAttempts_calls_le (dbs : Nat → DbOutcome) (retryDelay : Nat)
    (now id : Int) :
    ∀ budget (s : Store) (attempt : Nat),
      countCalls (processAttempts dbs retryDelay now id s attempt budget).events ≤ budget + 1 := by
  intro budget
  induction budget with
  | zero =>
      intro s attempt
      cases h : classifyAttempt (dbs attempt) s now id <;>
        simp [processAttempts, h, countCalls]
  | succ b ih =>
      intro s attempt
      cases h : classifyAttempt (dbs attempt) s now id <;>
        simp [processAttempts, h, countCalls, List.countP_cons] <;> try omega
      · have := ih s (attempt + 1)
        simp only [countCalls] at this
        omega

/-- The retry loop sleeps at most budget times. -/
theorem processAttempts_sleeps_le (dbs : Nat → DbOutcome) (retryDelay : Nat)
    (now id : Int) :
    ∀ budget (s : Store) (attempt : Nat),
      countSleeps (processAttempts dbs retryDelay now id s attempt budget).events ≤ budget := by
  intro budget
  induction budget with
  | zero =>
      intro s attempt
      cases h : classifyAttempt (dbs attempt) s now id <;>
        simp [processAttempts, h, countSleeps]
  | succ b ih =>
      intro s attempt
      cases h : classifyAttempt (dbs attempt) s now id <;>
        simp [processAttempts, h, countSleeps, List.countP_cons] <;> try omega
      · have := ih s (attempt + 1)
        simp only [countSleeps] at this
        omega

/-- Every setProcessed call of the retry loop targets the message id
with processed = true, and every sleep is the fixed delay. -/
theorem processAttempts_callsOnly (dbs : Nat → DbOutcome) (retryDelay : Nat)
    (now id : Int) :
    ∀ budget (s : Store) (attempt : Nat),
      callsOnlyIdTrue id retryDelay
        (processAttempts dbs retryDelay now id s attempt budget).events = true := by
  intro budget
  induction budget with
  | zero =>
      intro s attempt
      cases h : classifyAttempt (dbs attempt) s now id <;>
        simp [processAttempts, h, callsOnlyIdTrue]
  | succ b ih =>
      intro s attempt
      have hrec := ih s (attempt + 1)
      simp only [callsOnlyIdTrue] at hrec ⊢
      cases h : classifyAttempt (dbs attempt) s now id <;>
        simp [processAttempts, h, List.all_cons]
      intro x hx
      have hx2 := List.all_eq_true.mp hrec x hx
      simpa using hx2

/-- Core retry-policy computation: k Unavailable/Unknown failures
followed by a success, within budget, give k + 1 calls, k sleeps, no
skip and no residual error. -/
theorem processAttempts_fail_then_ok (dbs : Nat → DbOutcome) (retryDelay : Nat)
    (now id : Int) (s : Store) (hex : s.rows.countP (fun m => m.id = id) ≠ 0) :
    ∀ k attempt budget, k ≤ budget →
      (∀ i, i < k → unavailableOrUnknownFault (dbs (attempt + i)) = true) →
      dbs (attempt + k) = DbOutcome.ok →
      countCalls (processAttempts dbs retryDelay now id s attempt budget).events = k + 1 ∧
      countSleeps (processAttempts dbs retryDelay now id s attempt budget).events = k ∧
      (processAttempts dbs retryDelay now id s attempt budget).shouldSkip = false ∧
      (processAttempts dbs retryDelay now id s attempt budget).processErr = none := by
  intro k
  induction k with
  | zero =>
      intro attempt budget _ _ hok
      rw [Nat.add_zero] at hok
      have hcls : classifyAttempt (dbs attempt) s now id =
          .success { s with rows := s.rows.map (setRowStatus id true now) } := by
        rw [hok]
        exact classifyAttempt_ok_of_present s now id hex
      cases budget <;> simp [processAttempts, hcls, countCalls, countSleeps]
  | succ k ih =>
      intro attempt budget hkb hfail hok
      obtain ⟨b, rfl⟩ : ∃ b, budget = b + 1 := ⟨budget - 1, by omega⟩
      have hf0 : unavailableOrUnknownFault (dbs attempt) = true := by
        have := hfail 0 (Nat.succ_pos k)
        simpa using this
      obtain ⟨e, he⟩ := classifyAttempt_retryable_of_fault (dbs attempt) s now id hf0
      have ihr := ih (attempt + 1) b (by omega)
        (fun i hi => by
          have harith : attempt + 1 + i = attempt + (i + 1) := by omega
          rw [harith]
          exact hfail (i + 1) (by omega))
        (by
          have harith : attempt + 1 + k = attempt + (k + 1) := by omega
          rw [harith]
          exact hok)
      obtain ⟨hc, hs, hsk, hp⟩ := ihr
      simp only [countCalls] at hc
      simp only [countSleeps] at hs
      refine ⟨?_, ?_, ?_, ?_⟩ <;>
        simp [processAttempts, he, countCalls, countSleeps, List.countP_cons, hc, hs, hsk, hp]

/-! ### C1 -/

/-- C1: for a consumed envelope whose id exists in the store, if
setProcessed fails with a retryable (Unavailable/Unknown/unclassified)
error exactly k < maxRetries times and then succeeds, the loop makes
exactly k + 1 setProcessed calls, sleeps the fixed retryDelay exactly k
times with no backoff growth, and reports the message applied; and on
any oracle whatsoever the loop makes at most maxRetries + 1 calls. -/
theorem consume_retry_policy (maxRetries k retryDelay : Nat)
    (dbs : Nat → DbOutcome) (s : Store) (id now : Int)
    (dbs2 : Nat → DbOutcome) (s2 : Store) (id2 now2 : Int)
    (hk : k < maxRetries)
    (hex : s.rows.countP (fun m => m.id = id) ≠ 0)
    (hfail : ∀ i, i < k → unavailableOrUnknownFault (dbs i) = true)
    (hok : dbs k = DbOutcome.ok) :
    countCalls (processAttempts dbs retryDelay now id s 0 maxRetries).events = k + 1 ∧
    countSleeps (processAttempts dbs retryDelay now id s 0 maxRetries).events = k ∧
    reportsApplied (processAttempts dbs retryDelay now id s 0 maxRetries) = true ∧
    callsOnlyIdTrue id retryDelay
      (processAttempts dbs retryDelay now id s 0 maxRetries).events = true ∧
    countCalls (processAttempts dbs2 retryDelay now2 id2 s2 0 maxRetries).events
      ≤ maxRetries + 1 := by
  have hmain := processAttempts_fail_then_ok dbs retryDelay now id s hex k 0 maxRetries
    (by omega) (fun i hi => by simpa using hfail i hi) (by simpa using hok)
  obtain ⟨hc, hs, hsk, hp⟩ := hmain
  refine ⟨hc, hs, ?_, processAttempts_callsOnly dbs retryDelay now id maxRetries s 0,
    processAttempts_calls_le dbs2 retryDelay now2 id2 maxRetries s2 0⟩
  simp [reportsApplied, hsk, hp]

/-- Witness for C1: one transport failure, then success, with
maxRetries = 3 over a store holding id 1. -/
theorem consume_retry_policy_witness :
    countCalls (processAttempts failOnceDbs 5000 9 1 pendingStore 0 3).events = 1 + 1 ∧
    countSleeps (processAttempts failOnceDbs 5000 9 1 pendingStore 0 3).events = 1 ∧
    reportsApplied (processAttempts failOnceDbs 5000 9 1 pendingStore 0 3) = true ∧
    callsOnlyIdTrue 1 5000 (processAttempts failOnceDbs 5000 9 1 pendingStore 0 3).events
      = true ∧
    countCalls (processAttempts failOnceDbs 5000 9 1 pendingStore 0 3).events ≤ 3 + 1 :=
  consume_retry_policy 3 1 5000 failOnceDbs pendingStore 1 9 failOnceDbs pendingStore 1 9
    (by decide) (by decide) (by decide) (by decide)

/-! ### C2 -/

/-- C2: when the first setProcessed attempt fails with an error whose
classification is MESSAGE_NOT_FOUND or INVALID_INPUT, the retry loop of
the consumer stops after that single attempt: one setProcessed call,
zero retry-delay sleeps, a warning-level log, no residual error, store
untouched; the iteration reports the message as handled (final log is
the success message, not the failure message) and advances to the next
message. -/
theorem consume_nonretryable_skip (dbs : Nat → DbOutcome) (maxRetries retryDelay : Nat)
    (s : Store) (now : Int) (msg : Message) (payload : Json)
    (e : GoError) (re : RepositoryError)
    (hdec : unmarshalMessage payload = .ok msg)
    (herr : serviceProcessMessage (dbs 0) s now msg.id = .error e)
    (hre : errorsAsRepositoryError e = some re)
    (hcode : re.code = ErrorCodeMessageNotFound ∨ re.code = ErrorCodeInvalidInput) :
    countCalls (processAttempts dbs retryDelay now msg.id s 0 maxRetries).events = 1 ∧
    countSleeps (processAttempts dbs retryDelay now msg.id s 0 maxRetries).events = 0 ∧
    (processAttempts dbs retryDelay now msg.id s 0 maxRetries).shouldSkip = true ∧
    (processAttempts dbs retryDelay now msg.id s 0 maxRetries).processErr = none ∧
    (processAttempts dbs retryDelay now msg.id s 0 maxRetries).store = s ∧
    countWarnLogs (processAttempts dbs retryDelay now msg.id s 0 maxRetries).events = 1 ∧
    reportsApplied (processAttempts dbs retryDelay now msg.id s 0 maxRetries) = true ∧
    (consumeIteration false (ReadResult.ok (some payload)) dbs maxRetries retryDelay
        s now).outcome = .advance s ∧
    (consumeIteration false (ReadResult.ok (some payload)) dbs maxRetries retryDelay
        s now).events =
      .log .info "Processing Kafka message" ::
        (processAttempts dbs retryDelay now msg.id s 0 maxRetries).events ++
        [.log .info "Successfully processed Kafka message"] := by
  have hcls : classifyAttempt (dbs 0) s now msg.id = AttemptStep.skipNotFound ∨
      classifyAttempt (dbs 0) s now msg.id = AttemptStep.skipInvalid := by
    rcases hcode with hc | hc
    · left
      simp [classifyAttempt, herr, hre, hc]
    · right
      simp [classifyAttempt, herr, hre, hc, ErrorCodeMessageNotFound, ErrorCodeInvalidInput]
  have hcore : countCalls (processAttempts dbs retryDelay now msg.id s 0 maxRetries).events = 1 ∧
      countSleeps (processAttempts dbs retryDelay now msg.id s 0 maxRetries).events = 0 ∧
      (processAttempts dbs retryDelay now msg.id s 0 maxRetries).shouldSkip = true ∧
      (processAttempts dbs retryDelay now msg.id s 0 maxRetries).processErr = none ∧
      (processAttempts dbs retryDelay now msg.id s 0 maxRetries).store = s ∧
      countWarnLogs (processAttempts dbs retryDelay now msg.id s 0 maxRetries).events = 1 := by
    rcases hcls with hc | hc <;> cases maxRetries <;>
      simp [processAttempts, hc, countCalls, countSleeps, countWarnLogs]
  obtain ⟨hc1, hc2, hc3, hc4, hc5, hc6⟩ := hcore
  refine ⟨hc1, hc2, hc3, hc4, hc5, hc6, ?_, ?_, ?_⟩
  · simp [reportsApplied, hc3]
  · simp [consumeIteration, hdec, hc3, hc5]
  · simp [consumeIteration, hdec, hc3]

/-- Witness for C2: envelope for the absent id 5 over a store holding
only id 1, with a healthy database. -/
theorem consume_nonretryable_skip_witness :
    countCalls (processAttempts (fun _ => DbOutcome.ok) 5000 9 (5 : Int) pendingStore 0 3).events = 1 ∧
    countSleeps (processAttempts (fun _ => DbOutcome.ok) 5000 9 (5 : Int) pendingStore 0 3).events = 0 ∧
    (processAttempts (fun _ => DbOutcome.ok) 5000 9 (5 : Int) pendingStore 0 3).shouldSkip = true ∧
    (processAttempts (fun _ => DbOutcome.ok) 5000 9 (5 : Int) pendingStore 0 3).processErr = none ∧
    (processAttempts (fun _ => DbOutcome.ok) 5000 9 (5 : Int) pendingStore 0 3).store = pendingStore ∧
    countWarnLogs (processAttempts (fun _ => DbOutcome.ok) 5000 9 (5 : Int) pendingStore 0 3).events = 1 ∧
    reportsApplied (processAttempts (fun _ => DbOutcome.ok) 5000 9 (5 : Int) pendingStore 0 3) = true ∧
    (consumeIteration false (ReadResult.ok (some (Json.obj [("id", Json.num 5)])))
        (fun _ => DbOutcome.ok) 3 5000 pendingStore 9).outcome = .advance pendingStore ∧
    (consumeIteration false (ReadResult.ok (some (Json.obj [("id", Json.num 5)])))
        (fun _ => DbOutcome.ok) 3 5000 pendingStore 9).events =
      .log .info "Processing Kafka message" ::
        (processAttempts (fun _ => DbOutcome.ok) 5000 9 (5 : Int) pendingStore 0 3).events ++
        [.log .info "Successfully processed Kafka message"] :=
  consume_nonretryable_skip (fun _ => DbOutcome.ok) 3 5000 pendingStore 9
    { id := 5, content := "", processed := false, created_at := 0, updated_at := 0 }
    (Json.obj [("id", Json.num 5)])
    (.wrapped "message not found"
      (.repo ⟨ErrorCodeMessageNotFound, "UpdateMessageStatus", "message not found"⟩))
    ⟨ErrorCodeMessageNotFound, "UpdateMessageStatus", "message not found"⟩
    (by rfl) (by rfl) (by rfl) (Or.inl rfl)

/-! ### C8 -/

/-- C8: two envelopes decoding to the same id produce the identical
consume-loop iteration — same store effect, same trace — regardless of
their content, processed flag or timestamps, and every store write the
iteration issues is setProcessed(id, true). -/
theorem consume_effect_depends_only_on_id
    (dbs : Nat → DbOutcome) (maxRetries retryDelay : Nat) (s : Store) (now : Int)
    (j1 j2 : Json) (m1 m2 : Message)
    (h1 : unmarshalMessage j1 = .ok m1) (h2 : unmarshalMessage j2 = .ok m2)
    (hid : m1.id = m2.id) :
    consumeIteration false (ReadResult.ok (some j1)) dbs maxRetries retryDelay s now =
      consumeIteration false (ReadResult.ok (some j2)) dbs maxRetries retryDelay s now ∧
    callsOnlyIdTrue m1.id retryDelay
      (processAttempts dbs retryDelay now m1.id s 0 maxRetries).events = true := by
  refine ⟨?_, processAttempts_callsOnly dbs retryDelay now m1.id maxRetries s 0⟩
  simp [consumeIteration, h1, h2, hid]

/-- Witness for C8: two envelopes with id 1 differing in content,
processed flag and timestamps. -/
theorem consume_effect_depends_only_on_id_witness :
    consumeIteration false (ReadResult.ok (some (Json.obj [("id", Json.num 1)])))
        failOnceDbs 3 5000 pendingStore 9 =
      consumeIteration false (ReadResult.ok (some (Json.obj
          [("id", Json.num 1), ("content", Json.str "other"),
           ("processed", Json.bool true), ("created_at", Json.num 7)])))
        failOnceDbs 3 5000 pendingStore 9 ∧
    callsOnlyIdTrue (1 : Int) 5000
      (processAttempts failOnceDbs 5000 9 1 pendingStore 0 3).events = true :=
  consume_effect_depends_only_on_id failOnceDbs 3 5000 pendingStore 9
    (Json.obj [("id", Json.num 1)])
    (Json.obj [("id", Json.num 1), ("content", Json.str "other"),
      ("processed", Json.bool true), ("created_at", Json.num 7)])
    { id := 1, content := "", processed := false, created_at := 0, updated_at := 0 }
    { id := 1, content := "other", processed := true, created_at := 7, updated_at := 0 }
    (by rfl) (by rfl) rfl

/-! ### C10 -/

/-- Reachable stores assign ids monotonically starting at 1: the SERIAL
counter stays at least 1 and every row id lies in [1, nextId). -/
theorem reachable_ids_pos (s : Store) (h : Reachable s) :
    1 ≤ s.nextId ∧ ∀ m ∈ s.rows, 1 ≤ m.id ∧ m.id < s.nextId := by
  induction h with
  | empty => simp [emptyStore]
  | create s now content m s2 _ hc ih =>
      simp only [CreateMessage] at hc
      obtain ⟨_, hs2⟩ := Prod.mk.injEq .. ▸ (Except.ok.injEq .. ▸ hc)
      subst hs2
      obtain ⟨hn, hrows⟩ := ih
      constructor
      · dsimp only
        omega
      · intro m hm
        dsimp only at hm
        rcases List.mem_append.mp hm with hmem | hmem
        · have hb := hrows m hmem
          dsimp only
          omega
        · rcases List.mem_singleton.mp hmem with rfl
          dsimp only
          omega
  | update s now id b s2 _ hc ih =>
      unfold UpdateMessageStatus at hc
      dsimp only at hc
      split at hc
      · exact absurd hc (by simp)
      · obtain ⟨hn, hrows⟩ := ih
        injection hc with hc
        subst hc
        refine ⟨hn, ?_⟩
        intro m hm
        simp only [List.mem_map] at hm
        obtain ⟨m0, hm0, rfl⟩ := hm
        have := hrows m0 hm0
        by_cases hid : m0.id = id <;> simp [setRowStatus, hid] <;> omega

/-- Counterexample to C10 as stated: the payload with a mis-typed
content field and no id is syntactically valid JSON lacking an id
field, yet decoding fails (json.Unmarshal reports a type error for the
content field), the message is dropped at the decode step with only the
unmarshal-error log, and setProcessed is never called for it — so it is
not the case that every valid-JSON id-less payload decodes with
id = 0. -/
theorem idless_payload_with_mistyped_field_is_dropped :
    unmarshalMessage (Json.obj [("content", Json.num 5)]) = .error "cannot unmarshal" ∧
    consumeIteration false (ReadResult.ok (some (Json.obj [("content", Json.num 5)])))
        (fun _ => DbOutcome.ok) 3 5000 pendingStore 9 =
      { outcome := .advance pendingStore,
        events := [.log .error "Error unmarshaling message"] } :=
  ⟨rfl, rfl⟩

/-- C10 (amended): for every broker payload that is a valid JSON object
lacking an id field and whose decoding succeeds (its present fields
have the expected shapes — otherwise the payload is dropped at the
decode step as a decode error), the decoded message has id = 0; on any
reachable store the resulting setProcessed(0, true) fails as
MESSAGE_NOT_FOUND because ids start at 1, so the consumer skips the
message after exactly one call, with zero sleeps and zero retries, and
the iteration advances. -/
theorem missing_id_field_decodes_zero_and_skips
    (s : Store) (maxRetries retryDelay : Nat) (now : Int)
    (fields : List (String × Json)) (msg : Message)
    (hs : Reachable s)
    (hnoid : jsonField fields "id" = none)
    (hdec : unmarshalMessage (Json.obj fields) = .ok msg) :
    msg.id = 0 ∧
    UpdateMessageStatus DbOutcome.ok s now 0 true =
      .error (.repo ⟨ErrorCodeMessageNotFound, "UpdateMessageStatus", "message not found"⟩) ∧
    processAttempts (fun _ => DbOutcome.ok) retryDelay now msg.id s 0 maxRetries =
      { store := s,
        events := [.setProcessedCall 0 true, .log .warn "Message not found for processing"],
        shouldSkip := true, processErr := none } ∧
    consumeIteration false (ReadResult.ok (some (Json.obj fields))) (fun _ => DbOutcome.ok)
        maxRetries retryDelay s now =
      { outcome := .advance s,
        events := [.log .info "Processing Kafka message", .setProcessedCall 0 true,
          .log .warn "Message not found for processing",
          .log .info "Successfully processed Kafka message"] } := by
  have hid : decodeField fields "id" jsonAsInt (0 : Int) = Except.ok 0 := by
    simp [decodeField, hnoid]
  have hmsgid : msg.id = 0 := by
    have hdec2 := hdec
    simp only [unmarshalMessage, hid] at hdec2
    cases hc : decodeField fields "content" jsonAsString "" with
    | error ec => rw [hc] at hdec2; simp [Except.instMonad, Except.bind] at hdec2
    | ok c =>
      rw [hc] at hdec2
      cases hp : decodeField fields "processed" jsonAsBool false with
      | error ep => rw [hp] at hdec2; simp [Except.instMonad, Except.bind] at hdec2
      | ok p =>
        rw [hp] at hdec2
        cases hca : decodeField fields "created_at" jsonAsInt 0 with
        | error eca => rw [hca] at hdec2; simp [Except.instMonad, Except.bind] at hdec2
        | ok ca =>
          rw [hca] at hdec2
          cases hua : decodeField fields "updated_at" jsonAsInt 0 with
          | error eua => rw [hua] at hdec2; simp [Except.instMonad, Except.bind] at hdec2
          | ok ua =>
            rw [hua] at hdec2
            simp [Except.instMonad, Except.bind] at hdec2
            rw [← hdec2]
  have hzero : s.rows.countP (fun m => m.id = 0) = 0 := by
    rw [List.countP_eq_zero]
    intro m hm
    have := (reachable_ids_pos s hs).2 m hm
    simp only [decide_eq_true_eq]
    omega
  have hupd : UpdateMessageStatus DbOutcome.ok s now 0 true =
      .error (.repo ⟨ErrorCodeMessageNotFound, "UpdateMessageStatus", "message not found"⟩) := by
    simp [UpdateMessageStatus, hzero]
  have hcls := classifyAttempt_notFound_of_absent s now 0 hzero
  have hpa : processAttempts (fun _ => DbOutcome.ok) retryDelay now msg.id s 0 maxRetries =
      { store := s,
        events := [.setProcessedCall 0 true, .log .warn "Message not found for processing"],
        shouldSkip := true, processErr := none } := by
    rw [hmsgid]
    cases maxRetries <;> simp [processAttempts, hcls]
  refine ⟨hmsgid, hupd, hpa, ?_⟩
  simp [consumeIteration, hdec, hpa]

/-- Witness for the amended C10: the empty object over a store reached
by a single create. -/
theorem missing_id_field_decodes_zero_and_skips_witness :
    ({ id := 0, content := "", processed := false, created_at := 0,
        updated_at := 0 } : Message).id = 0 ∧
    UpdateMessageStatus DbOutcome.ok pendingStore 9 0 true =
      .error (.repo ⟨ErrorCodeMessageNotFound, "UpdateMessageStatus", "message not found"⟩) ∧
    processAttempts (fun _ => DbOutcome.ok) 5000 9
        ({ id := 0, content := "", processed := false, created_at := 0,
            updated_at := 0 } : Message).id pendingStore 0 3 =
      { store := pendingStore,
        events := [.setProcessedCall 0 true, .log .warn "Message not found for processing"],
        shouldSkip := true, processErr := none } ∧
    consumeIteration false (ReadResult.ok (some (Json.obj []))) (fun _ => DbOutcome.ok)
        3 5000 pendingStore 9 =
      { outcome := .advance pendingStore,
        events := [.log .info "Processing Kafka message", .setProcessedCall 0 true,
          .log .warn "Message not found for processing",
          .log .info "Successfully processed Kafka message"] } :=
  missing_id_field_decodes_zero_and_skips pendingStore 3 5000 9 []
    { id := 0, content := "", processed := false, created_at := 0, updated_at := 0 }
    (Reachable.create emptyStore 0 "hi" _ pendingStore Reachable.empty (by rfl))
    (by rfl) (by rfl)

/-! ### C7 -/

/-- C7: setProcessed is idempotent on existing ids: two consecutive
calls with the same flag both succeed (the second never fails), both
leave processed = b on the record, and the second call still bumps
updated_at to its own clock value. -/
theorem setProcessed_idempotent (s : Store) (id : Int) (b : Bool) (now1 now2 : Int)
    (hex : s.rows.countP (fun m => m.id = id) ≠ 0) :
    ∃ s1 s2,
      UpdateMessageStatus DbOutcome.ok s now1 id b = .ok s1 ∧
      UpdateMessageStatus DbOutcome.ok s1 now2 id b = .ok s2 ∧
      (∀ m ∈ s1.rows, m.id = id → m.processed = b ∧ m.updated_at = now1) ∧
      (∀ m ∈ s2.rows, m.id = id → m.processed = b ∧ m.updated_at = now2) := by
  have hmap : ∀ (now : Int),
      ((s.rows.map (setRowStatus id b now)).countP (fun m => m.id = id))
        = s.rows.countP (fun m => m.id = id) := by
    intro now
    rw [List.countP_map]
    apply List.countP_congr
    intro m _
    by_cases hid : m.id = id <;> simp [setRowStatus, hid]
  refine ⟨{ s with rows := s.rows.map (setRowStatus id b now1) },
      { s with rows := (s.rows.map (setRowStatus id b now1)).map (setRowStatus id b now2) },
      ?_, ?_, ?_, ?_⟩
  · simp [UpdateMessageStatus, hex]
  · simp [UpdateMessageStatus, hmap now1, hex]
  · intro m hm hid
    simp only [List.mem_map] at hm
    obtain ⟨m0, _, rfl⟩ := hm
    by_cases h0 : m0.id = id
    · simp [setRowStatus, h0]
    · simp [setRowStatus, h0] at hid
  · intro m hm hid
    simp only [List.mem_map] at hm
    obtain ⟨m1, hm1, rfl⟩ := hm
    obtain ⟨m0, _, rfl⟩ := hm1
    by_cases h0 : m0.id = id
    · simp [setRowStatus, h0]
    · simp [setRowStatus, h0] at hid

/-- Witness for C7: marking id 1 processed twice on a store holding one
unprocessed record with that id. -/
theorem setProcessed_idempotent_witness :
    ∃ s1 s2,
      UpdateMessageStatus DbOutcome.ok pendingStore 5 1 true = .ok s1 ∧
      UpdateMessageStatus DbOutcome.ok s1 7 1 true = .ok s2 ∧
      (∀ m ∈ s1.rows, m.id = 1 → m.processed = true ∧ m.updated_at = 5) ∧
      (∀ m ∈ s2.rows, m.id = 1 → m.processed = true ∧ m.updated_at = 7) :=
  setProcessed_idempotent pendingStore 1 true 5 7 (by decide)

/-! ### C5 -/

/-- Counterexample to C5: a concrete run in which the cancellation
signal is set immediately after a successful read — so every
context-aware operation inside the retry sequence reports the
cancellation, modelled by the database oracle returning the context
cancellation as a transport error — yet the iteration still performs
three full fixed-delay sleeps (the time.Sleep between attempts takes no
context) and then advances instead of exiting.  This refutes the claim
that once the signal is set no further retry-delay sleep is performed. -/
theorem retry_sleep_ignores_cancellation :
    countSleeps (consumeIteration false
      (ReadResult.ok (some (Json.obj [("id", Json.num 1)])))
      (fun _ => DbOutcome.otherError "context canceled") 3 5000 pendingStore 0).events = 3 ∧
    (consumeIteration false
      (ReadResult.ok (some (Json.obj [("id", Json.num 1)])))
      (fun _ => DbOutcome.otherError "context canceled") 3 5000 pendingStore 0).outcome =
      .advance pendingStore := by
  exact ⟨rfl, rfl⟩

/-- C5 (amended): the loop-top check and the blocking broker read do
observe the cancellation signal — with the signal set at the loop top
the iteration exits with no sleep, and a failed read with the signal
set exits with no sleep — but the fixed retry-delay sleep does not: it
is bounded only by maxRetries sleeps per message, not interrupted by
cancellation. -/
theorem cancellation_observed_at_loop_top_and_read
    (read : ReadResult) (dbs : Nat → DbOutcome) (maxRetries retryDelay : Nat)
    (s : Store) (now : Int) :
    (consumeIteration true read dbs maxRetries retryDelay s now).outcome = .shutdown ∧
    countSleeps (consumeIteration true read dbs maxRetries retryDelay s now).events = 0 ∧
    (consumeIteration false (ReadResult.err true) dbs maxRetries retryDelay s now).outcome
      = .shutdown ∧
    countSleeps (consumeIteration false (ReadResult.err true) dbs maxRetries retryDelay
      s now).events = 0 ∧
    countSleeps (consumeIteration false read dbs maxRetries retryDelay s now).events
      ≤ maxRetries := by
  refine ⟨rfl, rfl, rfl, rfl, ?_⟩
  cases read with
  | err ctxCancelled =>
      cases ctxCancelled <;> simp [consumeIteration, countSleeps]
  | ok payload =>
      cases payload with
      | none => simp [consumeIteration, countSleeps]
      | some j =>
          cases hj : unmarshalMessage j with
          | error msg => simp [consumeIteration, hj, countSleeps]
          | ok msg =>
              have hb := processAttempts_sleeps_le dbs retryDelay now msg.id maxRetries s 0
              simp only [countSleeps] at hb
              cases hskip : (processAttempts dbs retryDelay now msg.id s 0 maxRetries).shouldSkip with
              | true =>
                  simp [consumeIteration, hj, hskip, countSleeps, List.countP_cons,
                    List.countP_append]
                  omega
              | false =>
                  cases hperr :
                      (processAttempts dbs retryDelay now msg.id s 0 maxRetries).processErr <;>
                    simp [consumeIteration, hj, hskip, hperr, countSleeps, List.countP_cons,
                      List.countP_append] <;> omega

end HttpChat
